import Mathlib

/-!
Shallow embedding of the `/send` request handler of the MSG-APP messaging
gateway (the full-featured server variant: SMS / WhatsApp / voice call with
image and audio support).

The handler is modelled as pure functions:
* `validate` mirrors the input-validation block (early returns become the
  first `some` error);
* `dispatch` mirrors the two `switch (channel)` blocks that pick the
  from/to addresses and build the Twilio payload (`messageOptions`);
* `handle` mirrors the whole request/response cycle, with the outcome of
  the single Twilio SDK call supplied as a parameter;
* `providerCalls` lists the outbound Twilio operations a request triggers.

JavaScript field truthiness (`!x` is true for `undefined` and `""`) is
modelled by `truthy` on `Option String`.
-/

namespace MsgApp

/-- A request body for `POST /send`, after destructuring
`{ channel, recipient, message, imageUrl, callType, audioUrl }`.
A missing field is `none`; JSON string fields are kept as strings. -/
structure SendRequest where
  channel : Option String
  recipient : Option String
  message : Option String
  imageUrl : Option String
  callType : Option String
  audioUrl : Option String
  deriving Repr, DecidableEq

/-- Server configuration read from the environment at startup. -/
structure Config where
  twilioSmsNumber : String
  twilioWhatsAppSender : String
  deriving Repr, DecidableEq

/-- JavaScript truthiness of an optional string field:
`undefined` and the empty string are falsy. -/
def truthy : Option String → Bool
  | none => false
  | some s => s ≠ ""

/-- `listStartsWith l p` is true when `p` is an initial segment of `l`
(character-level model of JavaScript `String.prototype.startsWith`). -/
def listStartsWith : List Char → List Char → Bool
  | _, [] => true
  | [], _ :: _ => false
  | c :: cs, d :: ds => c == d && listStartsWith cs ds

/-- Model of `s.startsWith(p)` on JavaScript strings. -/
def strStartsWith (s p : String) : Bool :=
  listStartsWith s.data p.data

/-- The Cloudinary URL base the handler checks media URLs against. -/
def cloudinaryBase : String := "https://res.cloudinary.com"

/-- Model of the regular expression `^\+[1-9]\d{1,14}$` (E.164):
a `+`, then a digit `1`-`9`, then 1 to 14 digits. -/
def isE164 (s : String) : Bool :=
  match s.data with
  | '+' :: d :: rest =>
      ('1' ≤ d && d ≤ '9') && rest.all Char.isDigit
        && decide (1 ≤ rest.length) && decide (rest.length ≤ 14)
  | _ => false

/-- The validation failures the handler can return, one per early
`return res.status(400)` in the validation block. -/
inductive VError where
  | missingField
  | ttsMessageRequired
  | invalidAudioUrl
  | imageWithCall
  | missingContent
  | invalidChannel
  | invalidRecipient
  deriving Repr, DecidableEq

/-- The channel-specific validation block
(`if (channel === 'call') ... else if (channel === 'sms' || ...) ... else`):
`none` means the block falls through without returning an error. -/
def channelCheck (r : SendRequest) : Option VError :=
  if r.channel == some "call" then
    if r.callType == some "tts" && !truthy r.message then
      some .ttsMessageRequired
    else if r.callType == some "audio"
        && (!truthy r.audioUrl || !strStartsWith (r.audioUrl.getD "") cloudinaryBase) then
      some .invalidAudioUrl
    else if truthy r.imageUrl then
      some .imageWithCall
    else none
  else if r.channel == some "sms" || r.channel == some "whatsapp" then
    if !truthy r.message && !truthy r.imageUrl then some .missingContent
    else none
  else some .invalidChannel

/-- The whole validation block of the handler, in source order:
missing channel/recipient, then the channel-specific rules, then the
E.164 test on the recipient. `none` means validation passed. -/
def validate (r : SendRequest) : Option VError :=
  if !truthy r.channel || !truthy r.recipient then some .missingField
  else
    match channelCheck r with
    | some e => some e
    | none =>
        if !isE164 (r.recipient.getD "") then some .invalidRecipient
        else none

/-- One TwiML verb appended to the `VoiceResponse` document. -/
inductive TwimlVerb where
  | play (url : String)
  | say (voice : String) (message : Option String)
  | hangup
  deriving Repr, DecidableEq

/-- The `messageOptions` object passed to the Twilio SDK: the `to` and
`from` addresses always (named `toAddress`/`fromAddress` here), plus the
optional fields each channel branch adds. -/
structure MessageOptions where
  toAddress : String
  fromAddress : String
  body : Option String
  mediaUrl : Option (List String)
  twiml : Option (List TwimlVerb)
  deriving Repr, DecidableEq

/-- The single outbound Twilio operation a dispatched request performs. -/
inductive Action where
  | messagesCreate (opts : MessageOptions)
  | callsCreate (opts : MessageOptions)
  deriving Repr, DecidableEq

/-- The dispatch half of the handler: the first `switch (channel)` picks
`fromAddress`/`toAddress` (WhatsApp gets the `whatsapp:` prefix on both),
the second builds the payload and performs the one SDK call.
`none` corresponds to the unreachable default (invalid channel). -/
def dispatch (cfg : Config) (r : SendRequest) : Option Action :=
  let recipient := r.recipient.getD ""
  if r.channel == some "sms" || r.channel == some "whatsapp" then
    some (Action.messagesCreate
      { toAddress :=
          if r.channel == some "whatsapp" then "whatsapp:" ++ recipient
          else recipient
        fromAddress :=
          if r.channel == some "whatsapp" then
            "whatsapp:" ++ cfg.twilioWhatsAppSender
          else cfg.twilioSmsNumber
        body := if truthy r.message then r.message else none
        mediaUrl :=
          if truthy r.imageUrl
              && strStartsWith (r.imageUrl.getD "") cloudinaryBase then
            some [r.imageUrl.getD ""]
          else none
        twiml := none })
  else if r.channel == some "call" then
    some (Action.callsCreate
      { toAddress := recipient
        fromAddress := cfg.twilioSmsNumber
        body := none
        mediaUrl := none
        twiml :=
          some (if r.callType == some "audio" then
                  [TwimlVerb.play (r.audioUrl.getD ""), TwimlVerb.hangup]
                else
                  [TwimlVerb.say "Polly.Aditi" r.message, TwimlVerb.hangup]) })
  else none

/-- The list of outbound Twilio operations one request triggers: none when
validation fails, otherwise the single dispatched operation. -/
def providerCalls (cfg : Config) (r : SendRequest) : List Action :=
  match validate r with
  | some _ => []
  | none => (dispatch cfg r).toList

/-- Outcome of the awaited Twilio SDK call: success with a SID, or an
error carrying an optional HTTP-like status, a message and an optional
error code (the fields the catch block reads). -/
inductive ProviderOutcome where
  | ok (sid : String)
  | err (status : Option Nat) (message : String) (code : Option String)
  deriving Repr, DecidableEq

/-- A JSON response body: `{success:true, sid}` or `{error: msg}`. -/
inductive RespBody where
  | success (sid : String)
  | error (msg : String)
  deriving Repr, DecidableEq

/-- An HTTP response: status code plus JSON body. -/
structure HttpResponse where
  status : Nat
  body : RespBody
  deriving Repr, DecidableEq

/-- The error message each validation failure returns. -/
def vErrorMessage (r : SendRequest) : VError → String
  | .missingField => "Missing required fields: channel or recipient."
  | .ttsMessageRequired => "Message is required for text-to-speech calls."
  | .invalidAudioUrl =>
      "Valid Cloudinary Audio URL is required for audio file calls."
  | .imageWithCall => "Cannot send an image with a voice call."
  | .missingContent => "A message or an image URL is required for SMS/WhatsApp."
  | .invalidChannel => "Invalid channel specified."
  | .invalidRecipient =>
      "Invalid phone number: " ++ r.recipient.getD ""
        ++ ". Must be in E.164 format (e.g., +919876543210)."

/-- The body of the catch block's error response:
``Twilio Error: ${error.message}`` plus ``(Code: ...)`` when the error
carries a truthy code. -/
def providerErrorBody (message : String) (code : Option String) : String :=
  "Twilio Error: " ++ message
    ++ (match code with
        | some c => if c ≠ "" then " (Code: " ++ c ++ ")" else ""
        | none => "")

/-- `error.status || 500`: a truthy provider status is propagated,
otherwise 500. -/
def providerStatus : Option Nat → Nat
  | some n => if n = 0 then 500 else n
  | none => 500

/-- The whole request/response cycle: a validation failure returns its 400
response; otherwise the Twilio call's outcome is mapped to
`200 {success, sid}` or to the catch block's error response. -/
def handle (cfg : Config) (r : SendRequest) (outcome : ProviderOutcome) :
    HttpResponse :=
  match validate r with
  | some e => { status := 400, body := RespBody.error (vErrorMessage r e) }
  | none =>
      match outcome with
      | .ok sid => { status := 200, body := RespBody.success sid }
      | .err st msg code =>
          { status := providerStatus st
            body := RespBody.error (providerErrorBody msg code) }

/-- The `mediaUrl` field of a dispatched payload, if any. -/
def actionMediaUrl : Option Action → Option (List String)
  | some (Action.messagesCreate o) => o.mediaUrl
  | some (Action.callsCreate o) => o.mediaUrl
  | none => none

/-- The `body` field of a dispatched payload, if any. -/
def actionBody : Option Action → Option String
  | some (Action.messagesCreate o) => o.body
  | some (Action.callsCreate o) => o.body
  | none => none

/-- The `to` address of a dispatched payload, if any. -/
def actionTo : Option Action → Option String
  | some (Action.messagesCreate o) => some o.toAddress
  | some (Action.callsCreate o) => some o.toAddress
  | none => none

/-- The `from` address of a dispatched payload, if any. -/
def actionFrom : Option Action → Option String
  | some (Action.messagesCreate o) => some o.fromAddress
  | some (Action.callsCreate o) => some o.fromAddress
  | none => none

/-- The TwiML document of a dispatched payload, if any. -/
def actionTwiml : Option Action → Option (List TwimlVerb)
  | some (Action.messagesCreate o) => o.twiml
  | some (Action.callsCreate o) => o.twiml
  | none => none

/-- Whether a dispatched action is a `client.messages.create` call. -/
def isMessagesCreate : Option Action → Bool
  | some (Action.messagesCreate _) => true
  | _ => false

/-- Whether a dispatched action is a `client.calls.create` call. -/
def isCallsCreate : Option Action → Bool
  | some (Action.callsCreate _) => true
  | _ => false

end MsgApp

namespace MsgApp

/-! ### Helper lemmas -/

/-- A string matching the E.164 pattern is nonempty. -/
lemma isE164_ne_empty (p : String) (h : isE164 p = true) : p ≠ "" := by
  intro hp
  subst hp
  exact absurd h (by decide)

/-- Any validation failure produces a 400 response and triggers no
outbound provider operation. -/
lemma handle_400_of_validate_isSome (cfg : Config) (r : SendRequest)
    (outcome : ProviderOutcome) (h : (validate r).isSome = true) :
    (handle cfg r outcome).status = 400 ∧ providerCalls cfg r = [] := by
  rcases Option.isSome_iff_exists.mp h with ⟨e, he⟩
  simp [handle, providerCalls, he]

/-- A request that passes validation has one of the three known channels. -/
lemma validate_none_channel (r : SendRequest) (h : validate r = none) :
    r.channel = some "sms" ∨ r.channel = some "whatsapp"
      ∨ r.channel = some "call" := by
  by_contra hn
  push_neg at hn
  obtain ⟨h1, h2, h3⟩ := hn
  unfold validate channelCheck at h
  simp only [beq_iff_eq, h1, h2, h3, if_false, or_self] at h
  split_ifs at h <;> simp_all

/-- Dispatch succeeds on each of the three known channels. -/
lemma dispatch_isSome_of_channel (cfg : Config) (r : SendRequest)
    (h : r.channel = some "sms" ∨ r.channel = some "whatsapp"
      ∨ r.channel = some "call") :
    (dispatch cfg r).isSome = true := by
  rcases h with h | h | h <;> simp +decide [dispatch, h]

/-- With `channel = call` and a truthy `imageUrl`, the channel-specific
validation block always returns an error. -/
lemma channelCheck_isSome_of_call_image (r : SendRequest)
    (hc : r.channel = some "call") (himg : truthy r.imageUrl = true) :
    (channelCheck r).isSome = true := by
  unfold channelCheck
  simp only [hc, beq_iff_eq, if_true, reduceIte]
  split_ifs <;> simp_all

/-- If the channel-specific block returns an error, validation fails. -/
lemma validate_isSome_of_channelCheck_isSome (r : SendRequest)
    (h : (channelCheck r).isSome = true) : (validate r).isSome = true := by
  rcases Option.isSome_iff_exists.mp h with ⟨e, he⟩
  unfold validate
  split_ifs <;> simp [he]

/-! ### Concrete sample data -/

/-- A sample server configuration. -/
def sampleConfig : Config :=
  { twilioSmsNumber := "+15550001111", twilioWhatsAppSender := "+15550002222" }

/-- A request with an unknown channel and a malformed recipient. -/
def reqBadChannelBadPhone : SendRequest :=
  { channel := some "email", recipient := some "12345", message := some "hi",
    imageUrl := none, callType := none, audioUrl := none }

/-- An SMS request with a valid recipient and a non-Cloudinary image URL,
and no message. -/
def reqSmsForeignImage : SendRequest :=
  { channel := some "sms", recipient := some "+14155551234", message := none,
    imageUrl := some "https://example/img.png", callType := none,
    audioUrl := none }

/-- A valid WhatsApp text request. -/
def reqWhatsAppHello : SendRequest :=
  { channel := some "whatsapp", recipient := some "+14155551234",
    message := some "hello", imageUrl := none, callType := none,
    audioUrl := none }

end MsgApp

namespace MsgApp

/-! ### Claim theorems -/

/-- C1 counterexample: for the request `channel="email"`,
`recipient="12345"` (present, non-E.164 recipient, invalid channel) the
handler returns the invalid-channel error, not the invalid-recipient
error, so the spec's rule order (recipient format before channel) does
not hold of the code. -/
theorem c1_counterexample :
    validate reqBadChannelBadPhone = some VError.invalidChannel
      ∧ validate reqBadChannelBadPhone ≠ some VError.invalidRecipient := by
  decide

/-- C1 (amended): for every request in which channel and recipient are
present, the recipient does not match the E.164 pattern, and the channel
is not one of sms, whatsapp, call, validation fails with the
InvalidChannel error: the code checks the channel before the recipient
format, so rule 4 wins over rule 3. -/
theorem c1_invalid_channel_checked_first (r : SendRequest)
    (hch : truthy r.channel = true) (hrec : truthy r.recipient = true)
    (h1 : r.channel ≠ some "sms") (h2 : r.channel ≠ some "whatsapp")
    (h3 : r.channel ≠ some "call")
    (he : isE164 (r.recipient.getD "") = false) :
    validate r = some VError.invalidChannel := by
  unfold validate channelCheck
  simp [hch, hrec, h1, h2, h3]

/-- C1 witness: the amended theorem applied to the concrete
counterexample request. -/
theorem c1_witness :
    validate reqBadChannelBadPhone = some VError.invalidChannel :=
  c1_invalid_channel_checked_first reqBadChannelBadPhone (by decide)
    (by decide) (by decide) (by decide) (by decide) (by decide)

/-- C2: an sms or whatsapp request whose imageUrl is present but does not
start with the Cloudinary base is not rejected: with a truthy recipient
in E.164 format validation passes, and the dispatched
`client.messages.create` payload carries no `mediaUrl` list. -/
theorem c2_non_cloudinary_image_dropped (cfg : Config) (r : SendRequest)
    (hc : r.channel = some "sms" ∨ r.channel = some "whatsapp")
    (himg : truthy r.imageUrl = true)
    (hpre : strStartsWith (r.imageUrl.getD "") cloudinaryBase = false)
    (hrec : truthy r.recipient = true)
    (he : isE164 (r.recipient.getD "") = true) :
    validate r = none
      ∧ isMessagesCreate (dispatch cfg r) = true
      ∧ actionMediaUrl (dispatch cfg r) = none := by
  rcases hc with h | h <;>
    simp +decide [validate, channelCheck, dispatch, isMessagesCreate,
      actionMediaUrl, h, himg, hpre, hrec, he]

/-- C2 witness: the theorem applied to the concrete SMS request with the
foreign image URL. -/
theorem c2_witness :
    validate reqSmsForeignImage = none
      ∧ isMessagesCreate (dispatch sampleConfig reqSmsForeignImage) = true
      ∧ actionMediaUrl (dispatch sampleConfig reqSmsForeignImage) = none :=
  c2_non_cloudinary_image_dropped sampleConfig reqSmsForeignImage
    (Or.inl (by decide)) (by decide) (by decide) (by decide) (by decide)

/-- C3 counterexample: for `channel=sms, recipient=+14155551234,
imageUrl=https://example/img.png` and no message, the dispatched payload
carries no media list at all — not the claimed one-element list with that
URL (the URL lacks the Cloudinary base, so the handler drops it). -/
theorem c3_counterexample :
    actionMediaUrl (dispatch sampleConfig reqSmsForeignImage) = none
      ∧ actionMediaUrl (dispatch sampleConfig reqSmsForeignImage)
          ≠ some ["https://example/img.png"] := by
  decide

/-- C3 (amended): for the request `channel=sms, recipient=+14155551234,
imageUrl=https://example/img.png` and no message, validation passes and
the dispatcher produces a `client.messages.create` payload with no text
body and no media reference list: the non-Cloudinary image URL is
silently dropped. -/
theorem c3_payload_without_media (cfg : Config) :
    validate reqSmsForeignImage = none
      ∧ dispatch cfg reqSmsForeignImage = some (Action.messagesCreate
          { toAddress := "+14155551234", fromAddress := cfg.twilioSmsNumber,
            body := none, mediaUrl := none, twiml := none }) := by
  refine ⟨by decide, ?_⟩
  simp +decide [dispatch, reqSmsForeignImage]

end MsgApp

namespace MsgApp

/-- C4: every valid whatsapp request with a (nonempty) message passes
validation, and the dispatched `client.messages.create` payload has
`from` = `whatsapp:` + configured WhatsApp sender, `to` = `whatsapp:` +
recipient, and body equal to the message. -/
theorem c4_whatsapp_payload (cfg : Config) (r : SendRequest) (m p : String)
    (hc : r.channel = some "whatsapp")
    (hm : r.message = some m) (hm' : m ≠ "")
    (hp : r.recipient = some p) (he : isE164 p = true) :
    validate r = none
      ∧ isMessagesCreate (dispatch cfg r) = true
      ∧ actionFrom (dispatch cfg r)
          = some ("whatsapp:" ++ cfg.twilioWhatsAppSender)
      ∧ actionTo (dispatch cfg r) = some ("whatsapp:" ++ p)
      ∧ actionBody (dispatch cfg r) = some m := by
  have hp' : p ≠ "" := isE164_ne_empty p he
  simp +decide [validate, channelCheck, dispatch, isMessagesCreate,
    actionFrom, actionTo, actionBody, truthy, hc, hm, hm', hp, hp', he]

/-- C4 witness: the theorem applied to the concrete request
`channel=whatsapp, recipient=+14155551234, message=hello`. -/
theorem c4_witness :
    validate reqWhatsAppHello = none
      ∧ isMessagesCreate (dispatch sampleConfig reqWhatsAppHello) = true
      ∧ actionFrom (dispatch sampleConfig reqWhatsAppHello)
          = some ("whatsapp:" ++ sampleConfig.twilioWhatsAppSender)
      ∧ actionTo (dispatch sampleConfig reqWhatsAppHello)
          = some ("whatsapp:" ++ "+14155551234")
      ∧ actionBody (dispatch sampleConfig reqWhatsAppHello) = some "hello" :=
  c4_whatsapp_payload sampleConfig reqWhatsAppHello "hello" "+14155551234"
    (by decide) (by decide) (by decide) (by decide) (by decide)

/-- C5: a request with `channel=call` and a truthy `imageUrl` always gets
a 400 response and triggers no provider operation, whatever the other
fields (callType, message, audioUrl, recipient) hold. -/
theorem c5_call_with_image_rejected (cfg : Config) (r : SendRequest)
    (outcome : ProviderOutcome)
    (hc : r.channel = some "call") (himg : truthy r.imageUrl = true) :
    (handle cfg r outcome).status = 400 ∧ providerCalls cfg r = [] := by
  by_cases hrec : truthy r.recipient = true
  · exact handle_400_of_validate_isSome cfg r outcome
      (validate_isSome_of_channelCheck_isSome r
        (channelCheck_isSome_of_call_image r hc himg))
  · refine handle_400_of_validate_isSome cfg r outcome ?_
    unfold validate
    simp [hrec]

/-- C5 witness: the theorem applied to a concrete call request carrying
an image URL (with otherwise-valid tts fields). -/
theorem c5_witness :
    (handle sampleConfig
        { channel := some "call", recipient := some "+14155551234",
          message := some "hi",
          imageUrl := some "https://res.cloudinary.com/x/i.png",
          callType := some "tts", audioUrl := none }
        (ProviderOutcome.ok "SM1")).status = 400
      ∧ providerCalls sampleConfig
          { channel := some "call", recipient := some "+14155551234",
            message := some "hi",
            imageUrl := some "https://res.cloudinary.com/x/i.png",
            callType := some "tts", audioUrl := none } = [] :=
  c5_call_with_image_rejected sampleConfig _ (ProviderOutcome.ok "SM1")
    (by decide) (by decide)

/-- C6: when channel and recipient are present and the channel-specific
validation block accepts (which entails a valid channel and a satisfied
content rule), a recipient failing the E.164 pattern yields
InvalidRecipientFormat: a 400 response whose body is the invalid-phone
message, and no provider operation. -/
theorem c6_bad_recipient_rejected (cfg : Config) (r : SendRequest)
    (outcome : ProviderOutcome)
    (hch : truthy r.channel = true) (hrec : truthy r.recipient = true)
    (hcc : channelCheck r = none)
    (he : isE164 (r.recipient.getD "") = false) :
    validate r = some VError.invalidRecipient
      ∧ handle cfg r outcome =
          { status := 400,
            body := RespBody.error ("Invalid phone number: "
              ++ r.recipient.getD ""
              ++ ". Must be in E.164 format (e.g., +919876543210).") }
      ∧ providerCalls cfg r = [] := by
  have hv : validate r = some VError.invalidRecipient := by
    unfold validate
    simp [hch, hrec, hcc, he]
  exact ⟨hv, by simp [handle, hv, vErrorMessage], by simp [providerCalls, hv]⟩

/-- C6 witness: the theorem applied to a concrete sms request with the
malformed recipient `"12345"`. -/
theorem c6_witness :
    validate
        { channel := some "sms", recipient := some "12345",
          message := some "hi", imageUrl := none, callType := none,
          audioUrl := none } = some VError.invalidRecipient
      ∧ handle sampleConfig
          { channel := some "sms", recipient := some "12345",
            message := some "hi", imageUrl := none, callType := none,
            audioUrl := none } (ProviderOutcome.ok "SM1") =
          { status := 400,
            body := RespBody.error ("Invalid phone number: "
              ++ (Option.getD (some "12345") "")
              ++ ". Must be in E.164 format (e.g., +919876543210).") }
      ∧ providerCalls sampleConfig
          { channel := some "sms", recipient := some "12345",
            message := some "hi", imageUrl := none, callType := none,
            audioUrl := none } = [] :=
  c6_bad_recipient_rejected sampleConfig _ (ProviderOutcome.ok "SM1")
    (by decide) (by decide) (by decide) (by decide)

/-- C7: when validation passes and the provider operation fails, the
response status is the provider error's status when it carries a nonzero
one and 500 when it carries none, and the JSON body's error field
contains the provider's message as a substring (so the failure is
surfaced, never swallowed). -/
theorem c7_provider_error_propagated (cfg : Config) (r : SendRequest)
    (st : Option Nat) (msg : String) (code : Option String)
    (hv : validate r = none) :
    (st = none → (handle cfg r (ProviderOutcome.err st msg code)).status = 500)
      ∧ (∀ n, st = some n → n ≠ 0 →
          (handle cfg r (ProviderOutcome.err st msg code)).status = n)
      ∧ ∃ pre post, (handle cfg r (ProviderOutcome.err st msg code)).body
          = RespBody.error (pre ++ msg ++ post) := by
  refine ⟨?_, ?_, ?_⟩
  · intro hst
    simp [handle, hv, hst, providerStatus]
  · intro n hst hn
    simp [handle, hv, hst, providerStatus, hn]
  · exact ⟨"Twilio Error: ",
      (match code with
        | some c => if c ≠ "" then " (Code: " ++ c ++ ")" else ""
        | none => ""),
      by simp [handle, hv, providerErrorBody]⟩

/-- C7 witness: the theorem applied to the valid WhatsApp request with a
provider error carrying status 503 and a code. -/
theorem c7_witness :
    (handle sampleConfig reqWhatsAppHello
        (ProviderOutcome.err (some 503) "Service unavailable"
          (some "20003"))).status = 503
      ∧ ∃ pre post, (handle sampleConfig reqWhatsAppHello
          (ProviderOutcome.err (some 503) "Service unavailable"
            (some "20003"))).body
          = RespBody.error (pre ++ "Service unavailable" ++ post) := by
  have h := c7_provider_error_propagated sampleConfig reqWhatsAppHello
    (some 503) "Service unavailable" (some "20003") (by decide)
  exact ⟨h.2.1 503 rfl (by decide), h.2.2⟩

end MsgApp

namespace MsgApp

/-- C8: every request triggers at most one outbound provider operation,
and exactly one precisely when validation succeeds (it is a single
`Action`, i.e. one `client.messages.create` or one `client.calls.create`,
never both). -/
theorem c8_at_most_one_provider_call (cfg : Config) (r : SendRequest) :
    (providerCalls cfg r).length ≤ 1
      ∧ ((providerCalls cfg r).length = 1 ↔ validate r = none) := by
  cases heq : validate r with
  | some e => simp [providerCalls, heq]
  | none =>
      have hd : (dispatch cfg r).isSome = true :=
        dispatch_isSome_of_channel cfg r (validate_none_channel r heq)
      rcases Option.isSome_iff_exists.mp hd with ⟨a, ha⟩
      simp [providerCalls, heq, ha]

/-- C9: a call request whose callType is neither tts nor audio faces no
content requirement: with message, audioUrl and imageUrl all absent (and
a valid recipient) validation passes, and dispatch falls through to the
text-to-speech branch, building the say-verb from the absent message. -/
theorem c9_call_default_tts_no_content_rule (cfg : Config)
    (r : SendRequest) (p : String)
    (hc : r.channel = some "call")
    (ht : r.callType ≠ some "tts") (ha : r.callType ≠ some "audio")
    (hm : r.message = none) (hau : r.audioUrl = none)
    (himg : r.imageUrl = none)
    (hp : r.recipient = some p) (he : isE164 p = true) :
    validate r = none
      ∧ isCallsCreate (dispatch cfg r) = true
      ∧ actionTwiml (dispatch cfg r)
          = some [TwimlVerb.say "Polly.Aditi" none, TwimlVerb.hangup] := by
  have hp' : p ≠ "" := isE164_ne_empty p he
  simp +decide [validate, channelCheck, dispatch, isCallsCreate,
    actionTwiml, truthy, hc, ht, ha, hm, hau, himg, hp, hp', he]

/-- C9 witness: the theorem applied to a concrete bare call request with
no callType and no content fields. -/
theorem c9_witness :
    validate
        { channel := some "call", recipient := some "+14155551234",
          message := none, imageUrl := none, callType := none,
          audioUrl := none } = none
      ∧ isCallsCreate (dispatch sampleConfig
          { channel := some "call", recipient := some "+14155551234",
            message := none, imageUrl := none, callType := none,
            audioUrl := none }) = true
      ∧ actionTwiml (dispatch sampleConfig
          { channel := some "call", recipient := some "+14155551234",
            message := none, imageUrl := none, callType := none,
            audioUrl := none })
          = some [TwimlVerb.say "Polly.Aditi" none, TwimlVerb.hangup] :=
  c9_call_default_tts_no_content_rule sampleConfig _ "+14155551234"
    (by decide) (by decide) (by decide) (by decide) (by decide) (by decide)
    (by decide) (by decide)

/-- C10: a call request with callType audio whose audioUrl is present
(nonempty) but does not start with the Cloudinary base is rejected: the
channel block reports the invalid-audio-URL error, the response is 400,
and no provider operation runs — so the audio rule demands more than
mere presence of audioUrl. -/
theorem c10_audio_url_must_be_cloudinary (cfg : Config) (r : SendRequest)
    (outcome : ProviderOutcome) (u : String)
    (hc : r.channel = some "call") (hct : r.callType = some "audio")
    (hau : r.audioUrl = some u) (hu : u ≠ "")
    (hpre : strStartsWith u cloudinaryBase = false) :
    channelCheck r = some VError.invalidAudioUrl
      ∧ (handle cfg r outcome).status = 400
      ∧ providerCalls cfg r = [] := by
  have hcc : channelCheck r = some VError.invalidAudioUrl := by
    unfold channelCheck
    simp +decide [hc, hct, hau, truthy, hu, hpre]
  have h400 := handle_400_of_validate_isSome cfg r outcome
    (validate_isSome_of_channelCheck_isSome r (by simp [hcc]))
  exact ⟨hcc, h400.1, h400.2⟩

/-- C10 witness: the theorem applied to a concrete audio call whose
audioUrl points outside Cloudinary. -/
theorem c10_witness :
    channelCheck
        { channel := some "call", recipient := some "+14155551234",
          message := none, imageUrl := none, callType := some "audio",
          audioUrl := some "https://evil.example/a.mp3" }
      = some VError.invalidAudioUrl
      ∧ (handle sampleConfig
          { channel := some "call", recipient := some "+14155551234",
            message := none, imageUrl := none, callType := some "audio",
            audioUrl := some "https://evil.example/a.mp3" }
          (ProviderOutcome.ok "CA1")).status = 400
      ∧ providerCalls sampleConfig
          { channel := some "call", recipient := some "+14155551234",
            message := none, imageUrl := none, callType := some "audio",
            audioUrl := some "https://evil.example/a.mp3" } = [] :=
  c10_audio_url_must_be_cloudinary sampleConfig _ (ProviderOutcome.ok "CA1")
    "https://evil.example/a.mp3" (by decide) (by decide) (by decide)
    (by decide) (by decide)

end MsgApp
